import Mathlib

/-!
Shallow embedding of the postmessage-mcp protocol engine: the origin
allow-list matcher, the postMessage transports (client and server side),
the `McpClient` request correlator and the `McpServer` request router,
together with theorems settling the specification claims about them.

Each definition is translated from the corresponding TypeScript source:
* `isOriginAllowed` from `PostMessageClientTransport.isOriginAllowed` /
  `PostMessageServerTransport.isOriginAllowed` (the two bodies are
  textually identical);
* `transportOnMessage` from the `postRobot.on` handler installed by both
  `start()` of both transports;
* `TransportMachine` with `clientTransportStart` / `serverTransportStart` /
  `transportClose` from the lifecycle methods of the transports;
* `McpClient.*` from `src/lib/client/McpClient.ts`;
* `McpServer.*` from `src/lib/server/McpServer.ts`.

JavaScript conventions used throughout the embedding: a property that is
absent or `undefined` is modelled as `Option.none`; a thrown exception is
modelled as `Except.error` carrying the error message; JS `Map` objects
keyed by request id are modelled as duplicate-free `List RpcId` key sets
(`Map.set` = `List.insert`, `Map.delete` = `List.filter`, `Map.has` =
`List.contains`); callbacks handed to the host (promise `resolve` /
`reject`, the transport `onmessage` hook) are modelled by returning the
list of invocations they would receive.
-/

namespace PostMessageMcp

/-- JSON-RPC ids may be numbers or strings (`number | string` in the SDK types). -/
inductive RpcId where
  | num (n : Int)
  | str (s : String)
deriving DecidableEq

/-- Structured JSON data carried in `params` / `result` fields. -/
inductive JsonValue where
  | null
  | bool (b : Bool)
  | num (n : Int)
  | str (s : String)
  | arr (elems : List JsonValue)
  | obj (fields : List (String × JsonValue))

/-- JSON-RPC error object `{code, message}`. -/
structure RpcError where
  code : Int
  message : String
deriving DecidableEq

/-- JSON-RPC 2.0 message envelope `{jsonrpc, id?, method?, params?, result?, error?}`.
A field that is absent or `undefined` in the JavaScript object is `none`. -/
structure JsonRpcMessage where
  jsonrpc : String := "2.0"
  id : Option RpcId := none
  method : Option String := none
  params : Option JsonValue := none
  result : Option JsonValue := none
  error : Option RpcError := none

/-- JavaScript `String.prototype.endsWith`. -/
def jsEndsWith (s suffix : String) : Bool :=
  suffix.data.isSuffixOf s.data

/-- JavaScript `String.prototype.startsWith`. -/
def jsStartsWith (s pre : String) : Bool :=
  pre.data.isPrefixOf s.data

/-- Splits a character list at the first occurrence of the separator `sep`:
returns the part before it and the part after it, or `none` when `sep`
does not occur. Helper for the JS `split` / `includes` embeddings. -/
def breakOnSep (sep : List Char) : List Char → Option (List Char × List Char)
  | [] => none
  | c :: cs =>
    if sep.isPrefixOf (c :: cs) then
      some ([], (c :: cs).drop sep.length)
    else
      match breakOnSep sep cs with
      | some (pre, post) => some (c :: pre, post)
      | none => none

/-- JavaScript `String.prototype.includes` for a non-empty search string. -/
def jsIncludes (s sub : String) : Bool :=
  (breakOnSep sub.data s.data).isSome

/-- The first two components of JavaScript `s.split(sep)`, as consumed by the
destructuring `const [protocol, rest] = allowed.split("://")`; the second
component is `none` when the separator does not occur (JS `undefined`). -/
def jsSplitFirstTwo (sep s : String) : String × Option String :=
  match breakOnSep sep.data s.data with
  | none => (s, none)
  | some (pre, post) =>
    match breakOnSep sep.data post with
    | none => (String.mk pre, some (String.mk post))
    | some (mid, _) => (String.mk pre, some (String.mk mid))

/-- One iteration of the `for (const allowed of this.allowedOrigins)` loop body
of `isOriginAllowed` (identical in `PostMessageClientTransport` and
`PostMessageServerTransport`): exact match, then the `*.domain` wildcard,
then the `scheme://*.domain` wildcard. -/
def patternMatches (origin allowed : String) : Bool :=
  (allowed == origin) ||
  (if jsStartsWith allowed "*." then
    let domain := allowed.drop 2
    jsEndsWith origin domain || jsEndsWith origin ("." ++ domain)
  else false) ||
  (if jsIncludes allowed "://*." then
    let protoRest := jsSplitFirstTwo "://" allowed
    match protoRest.2 with
    | some rest =>
      if jsStartsWith rest "*." then
        let domain := rest.drop 2
        jsStartsWith origin (protoRest.1 ++ "://") &&
          (jsEndsWith origin domain || jsEndsWith origin ("." ++ domain))
      else false
    | none => false
  else false)

/-- `isOriginAllowed(origin)` of both transports: allow-all when the list is
absent or empty, otherwise return `true` iff some pattern in the list
matches (the loop returns `true` on the first match and `false` after the
loop). -/
def isOriginAllowed (allowedOrigins : Option (List String)) (origin : String) : Bool :=
  match allowedOrigins with
  | none => true
  | some pats =>
    if pats.isEmpty then true
    else pats.any (fun allowed => patternMatches origin allowed)

/-- The low-level post-robot acknowledgement `{received, error?}` returned by
the inbound message handler. -/
structure Ack where
  received : Bool
  error : Option String := none
deriving DecidableEq

/-- The `postRobot.on` handler installed by `start()` of both transports,
applied to one raw inbound message: gate on the allow-list, and either
return the negative ack without touching `onmessage`, or deliver the
decoded payload to the registered handler (when one is registered) and
return the positive ack. The second component lists the payloads passed
to `this.onmessage`. -/
def transportOnMessage (allowedOrigins : Option (List String)) (hasOnmessage : Bool)
    (origin : String) (data : JsonRpcMessage) : Ack × List JsonRpcMessage :=
  if !(isOriginAllowed allowedOrigins origin) then
    ({ received := false, error := some "Origin not allowed" }, [])
  else
    ({ received := true }, if hasOnmessage then [data] else [])

/-! ## Transport lifecycle (`start` / `close`)

The observable lifecycle state of one `PostMessageClientTransport` or
`PostMessageServerTransport` instance, together with the number of
post-robot listeners currently installed on its behalf and (client side)
the number of 100 ms startup delays performed. Listener handles are drawn
from the counter `nextHandle` so that replacing a listener is visible. -/

structure TransportMachine where
  started : Bool := false
  listener : Option Nat := none
  targetWindowSet : Bool := false
  installedCount : Nat := 0
  delaysApplied : Nat := 0
  nextHandle : Nat := 0

/-- A freshly constructed transport: not started, no listener installed. -/
def TransportMachine.init : TransportMachine := {}

/-- The `this.listener.cancel(); this.listener = null` cleanup block shared by
`start()` and `close()`. -/
def cancelListener (s : TransportMachine) : TransportMachine :=
  match s.listener with
  | some _ => { s with listener := none, installedCount := s.installedCount - 1 }
  | none => s

/-- `PostMessageClientTransport.start()`: early-return when already started;
throw when the iframe guard fires (`guardThrows`, see
`clientStartGuardThrows` below); cancel any stale listener; await the 100 ms
startup delay; then install the post-robot listener — `installOk` tells
whether `postRobot.on` succeeds; on failure `started` stays `false` and the
error is rethrown after `onerror`. -/
def clientTransportStart (s : TransportMachine) (guardThrows installOk : Bool) :
    TransportMachine :=
  if s.started then s
  else if guardThrows then s
  else
    let s1 := cancelListener s
    let s2 := { s1 with delaysApplied := s1.delaysApplied + 1 }
    if installOk then
      { s2 with
        listener := some s2.nextHandle
        nextHandle := s2.nextHandle + 1
        installedCount := s2.installedCount + 1
        started := true }
    else
      { s2 with started := false }

/-- `PostMessageServerTransport.start()`: early-return when already started;
`this.targetWindow = this.getTargetWindow()` throws when the target cannot
be resolved (`resolveOk = false`), leaving the state untouched; otherwise
cancel any stale listener and install the new one (`installOk` as above).
No startup delay on the server side. -/
def serverTransportStart (s : TransportMachine) (resolveOk installOk : Bool) :
    TransportMachine :=
  if s.started then s
  else if !resolveOk then s
  else
    let s0 := { s with targetWindowSet := true }
    let s1 := cancelListener s0
    if installOk then
      { s1 with
        listener := some s1.nextHandle
        nextHandle := s1.nextHandle + 1
        installedCount := s1.installedCount + 1
        started := true }
    else
      { s1 with started := false }

/-- `close()` of either transport: cancel the listener when present, drop the
target window reference (server side), mark not started. -/
def transportClose (s : TransportMachine) : TransportMachine :=
  let s1 := cancelListener s
  { s1 with targetWindowSet := false, started := false }

/-- One external operation on a transport instance. -/
inductive TransportOp where
  | startOp (guardOrResolve installOk : Bool)
  | closeOp

/-- Run a sequence of operations on a client transport from the given state. -/
def clientTransportRun (s : TransportMachine) : List TransportOp → TransportMachine
  | [] => s
  | TransportOp.startOp g ok :: ops => clientTransportRun (clientTransportStart s g ok) ops
  | TransportOp.closeOp :: ops => clientTransportRun (transportClose s) ops

/-- Run a sequence of operations on a server transport from the given state. -/
def serverTransportRun (s : TransportMachine) : List TransportOp → TransportMachine
  | [] => s
  | TransportOp.startOp r ok :: ops => serverTransportRun (serverTransportStart s r ok) ops
  | TransportOp.closeOp :: ops => serverTransportRun (transportClose s) ops

/-! ## Client transport target resolution (constructor and iframe guard) -/

/-- `ClientTransportOptions` from `src/lib/transport/types.ts`. Windows are
modelled as opaque identifiers (`Nat`). The constructor of
`PostMessageClientTransport` reads only the deprecated `parent` field;
`target` is declared in the options type but never consulted. -/
structure ClientTransportOptions where
  target : Option Nat := none
  parent : Option Nat := none
  targetOrigin : Option String := none
  allowedOrigins : Option (List String) := none

/-- `this.parentWindow = options.parent ?? window.parent` from the
`PostMessageClientTransport` constructor. `parentOf` is the `window.parent` accessor of the browser: total, and equal to the window itself at the top
level — it never yields `null` for an attached browsing context. -/
def resolveParentWindow (opts : ClientTransportOptions) (selfWindow : Nat)
    (parentOf : Nat → Nat) : Nat :=
  match opts.parent with
  | some w => w
  | none => parentOf selfWindow

/-- JS truthiness of a `Window` reference: an actual window object is always
truthy, so `!this.parentWindow` is `false` whenever `parentWindow` holds a
window. -/
def windowTruthy (_w : Nat) : Bool := true

/-- The guard `if (window === window.parent && !this.parentWindow) throw ...`
at the top of `PostMessageClientTransport.start()`: `true` exactly when the
transport would throw the "must run inside an iframe" error. -/
def clientStartGuardThrows (opts : ClientTransportOptions) (selfWindow : Nat)
    (parentOf : Nat → Nat) : Bool :=
  decide (selfWindow = parentOf selfWindow) &&
    !(windowTruthy (resolveParentWindow opts selfWindow parentOf))

/-! ## McpClient from `src/lib/client/McpClient.ts` -/

/-- `ClientState` from `src/lib/client/types.ts`. -/
inductive ClientState where
  | disconnected
  | connecting
  | connected
  | error
deriving DecidableEq

/-- `ServerInfo` `{name, version}`. -/
structure ServerInfo where
  name : String
  version : String
deriving DecidableEq

/-- An invocation of one of the promise callbacks held in `pendingRequests`. -/
inductive ClientEvent where
  | resolved (id : RpcId) (result : Option JsonValue)
  | rejected (id : RpcId) (message : String)

/-- The `setTimeout` armed by `sendRequest` for one request: which pending id
it will check, and its delay in milliseconds. -/
structure ArmedTimer where
  id : RpcId
  delayMs : Nat
deriving DecidableEq

/-- Mutable fields of one `McpClient` instance. `transport` is the
`this.transport` reference (attached and started, or `null`); the
`pendingRequests` map is modelled by its key set. -/
structure McpClientState where
  transport : Option Unit := none
  requestId : Nat := 0
  pending : List RpcId := []
  state : ClientState := ClientState.disconnected
  serverInfo : Option ServerInfo := none

namespace McpClient

/-- A freshly constructed `McpClient`: `requestId = 0`, no transport, no
pending requests, state `disconnected`. -/
def freshClient : McpClientState := {}

/-- `McpClient.sendRequest(method, params)`: throw `"Client 未连接"` when no
transport is attached; otherwise allocate id `++this.requestId`, register
the pending entry, build the JSON-RPC request and arm the 30 000 ms
timeout. Returns the updated state, the transmitted request, and the armed
timer. -/
def sendRequest (method : String) (params : Option JsonValue) (s : McpClientState) :
    Except String (McpClientState × JsonRpcMessage × ArmedTimer) :=
  match s.transport with
  | none => Except.error "Client 未连接"
  | some _ =>
    let idNat := s.requestId + 1
    let id := RpcId.num (Int.ofNat idNat)
    let request : JsonRpcMessage :=
      { id := some id, method := some method, params := params }
    Except.ok
      ({ s with requestId := idNat, pending := s.pending.insert id },
       request,
       { id := id, delayMs := 30000 })

/-- The `setTimeout` callback armed by `sendRequest`: if the id is still
pending when the 30 s deadline fires, delete the entry and reject with the
timeout error; otherwise do nothing. -/
def onTimeout (id : RpcId) (method : String) (s : McpClientState) :
    McpClientState × List ClientEvent :=
  if s.pending.contains id then
    ({ s with pending := s.pending.filter (fun x => !(x == id)) },
     [ClientEvent.rejected id ("请求超时: " ++ method)])
  else
    (s, [])

/-- `McpClient.handleMessage`: a message that carries an `id` and a `result`
or `error` is a response; when its id is pending, delete the entry and
reject (on `error`) or resolve (on `result`); every other message —
unknown id, missing id, or a notification — is ignored. -/
def handleMessage (s : McpClientState) (msg : JsonRpcMessage) :
    McpClientState × List ClientEvent :=
  if msg.id.isSome && (msg.result.isSome || msg.error.isSome) then
    match msg.id with
    | some i =>
      if s.pending.contains i then
        ({ s with pending := s.pending.filter (fun x => !(x == i)) },
         match msg.error with
         | some e => [ClientEvent.rejected i e.message]
         | none => [ClientEvent.resolved i msg.result])
      else (s, [])
    | none => (s, [])
  else (s, [])

/-- `McpClient.disconnect()`: close the transport when attached (the `Bool`
component records whether a channel close was performed), then null the
transport, reset `state`/`serverInfo`, and clear `pendingRequests`. The
`List ClientEvent` component lists the pending-call callbacks invoked —
the code invokes none. `requestId` is untouched. -/
def disconnect (s : McpClientState) : McpClientState × Bool × List ClientEvent :=
  ({ s with
      transport := none
      state := ClientState.disconnected
      serverInfo := none
      pending := [] },
   s.transport.isSome, [])

/-- The client state reached inside `connect()` immediately after
`await this.transport.start()` succeeds: `this.state` was set to
`"connecting"` and `this.transport` holds the started transport; the
`initialize` handshake has not completed, so the state is not yet
`"connected"`. -/
def connectAfterStart (s : McpClientState) : McpClientState :=
  { s with state := ClientState.connecting, transport := some () }

/-- `McpClient.listTools()` = `sendRequest("tools/list", {})`. -/
def listTools (s : McpClientState) :=
  sendRequest "tools/list" (some (JsonValue.obj [])) s

/-- `McpClient.callTool(name, args)` = `sendRequest("tools/call", {name, arguments: args})`. -/
def callTool (name : String) (args : Option JsonValue) (s : McpClientState) :=
  sendRequest "tools/call"
    (some (JsonValue.obj (("name", JsonValue.str name) ::
      (match args with
       | some a => [("arguments", a)]
       | none => [])))) s

/-- `McpClient.readResource(uri)` = `sendRequest("resources/read", {uri})`. -/
def readResource (uri : String) (s : McpClientState) :=
  sendRequest "resources/read" (some (JsonValue.obj [("uri", JsonValue.str uri)])) s

/-- `McpClient.listPrompts()` = `sendRequest("prompts/list", {})`. -/
def listPrompts (s : McpClientState) :=
  sendRequest "prompts/list" (some (JsonValue.obj [])) s

/-- `McpClient.getPrompt(name, args)` = `sendRequest("prompts/get", {name, arguments: args})`. -/
def getPrompt (name : String) (args : Option JsonValue) (s : McpClientState) :=
  sendRequest "prompts/get"
    (some (JsonValue.obj (("name", JsonValue.str name) ::
      (match args with
       | some a => [("arguments", a)]
       | none => [])))) s

/-- `McpClient.ping()` = `sendRequest("ping", {})`. -/
def ping (s : McpClientState) :=
  sendRequest "ping" (some (JsonValue.obj [])) s

/-- Whether an embedded `Except` computation succeeded. -/
def exceptOk {ε α : Type} : Except ε α → Bool
  | Except.ok _ => true
  | Except.error _ => false

/-- One engine-level operation for the id-allocation trace: a capability call
(any `sendRequest`), a `disconnect()`, or a successful re-`connect()` — the
latter attaches a fresh started transport, performs the `initialize`
handshake request through the same `sendRequest`, and marks the state
connected. -/
inductive ClientOp where
  | send (method : String)
  | disconnectOp
  | reconnectOp

/-- Apply one operation; the second component lists the request ids allocated
by it (numeric ids as allocated by `++this.requestId`). -/
def runOp (s : McpClientState) : ClientOp → McpClientState × List Nat
  | ClientOp.send method =>
    match sendRequest method (some (JsonValue.obj [])) s with
    | Except.ok (s', _, _) => (s', [s'.requestId])
    | Except.error _ => (s, [])
  | ClientOp.disconnectOp => ((disconnect s).1, [])
  | ClientOp.reconnectOp =>
    let s1 := { s with state := ClientState.connecting, transport := some () }
    match sendRequest "initialize" (some (JsonValue.obj [])) s1 with
    | Except.ok (s2, _, _) => ({ s2 with state := ClientState.connected }, [s2.requestId])
    | Except.error _ => (s1, [])

/-- Run a sequence of engine operations, collecting all allocated request ids
in order. -/
def runOps (s : McpClientState) : List ClientOp → McpClientState × List Nat
  | [] => (s, [])
  | op :: ops =>
    let r := runOp s op
    let rest := runOps r.1 ops
    (rest.1, r.2 ++ rest.2)

end McpClient

/-! ## McpServer from `src/lib/server/McpServer.ts` -/

/-- `ToolDefinition` from `src/lib/server/types.ts`: name, optional
description, input schema, and the handler function. A handler that throws
is modelled by `Except.error` carrying the thrown message. -/
structure ToolDefinition where
  name : String
  description : Option String := none
  inputSchema : JsonValue := JsonValue.obj [("type", JsonValue.str "object")]
  handler : JsonValue → Except String JsonValue

/-- `ResourceDefinition`: uri, name, optional metadata, and the read handler
(called with the uri). -/
structure ResourceDefinition where
  uri : String
  name : String
  description : Option String := none
  mimeType : Option String := none
  handler : String → Except String JsonValue

/-- `PromptDefinition`: name, optional metadata, and the get handler (called
with the arguments object). -/
structure PromptDefinition where
  name : String
  description : Option String := none
  arguments : Option JsonValue := none
  handler : JsonValue → Except String JsonValue

/-- `McpServerOptions` `{name, version}`. -/
structure McpServerOptions where
  name : String
  version : String

/-- Mutable fields of one `McpServer` instance: the attached transport (as
presence), the three keyed registries (`Map` objects, modelled as
association lists keyed by name / uri / name), the pending-request key set
of the server-as-caller path, and the construction options. -/
structure McpServerState where
  transport : Bool := false
  tools : List (String × ToolDefinition) := []
  resources : List (String × ResourceDefinition) := []
  prompts : List (String × PromptDefinition) := []
  pendingRequests : List RpcId := []
  options : McpServerOptions

namespace McpServer

/-- JavaScript property access `v[key]` on a JSON object: `none` when the
value is not an object or the key is absent (JS `undefined`). -/
def getField (v : JsonValue) (key : String) : Option JsonValue :=
  match v with
  | JsonValue.obj fields =>
    match fields.find? (fun kv => kv.1 == key) with
    | some kv => some kv.2
    | none => none
  | _ => none

/-- How JS renders a possibly-undefined value inside a template string such as
`` `工具未找到: ${params.name}` ``. Non-string JSON values are rendered
loosely; the claims only exercise the string and undefined cases. -/
def jsDisplay : Option JsonValue → String
  | some (JsonValue.str s) => s
  | some JsonValue.null => "null"
  | some (JsonValue.bool true) => "true"
  | some (JsonValue.bool false) => "false"
  | some (JsonValue.num n) => toString n
  | some (JsonValue.arr _) => "[object Array]"
  | some (JsonValue.obj _) => "[object Object]"
  | none => "undefined"

/-- Association-list lookup for the registry `Map.get` calls, keyed by the
(string) value extracted from the request params; any non-string key —
including JS `undefined` — finds nothing. -/
def mapGet {α : Type} (m : List (String × α)) (key : Option JsonValue) : Option α :=
  match key with
  | some (JsonValue.str k) =>
    match m.find? (fun kv => kv.1 == k) with
    | some kv => some kv.2
    | none => none
  | _ => none

/-- `McpServer.handleToolCall`: reading `params.name` off an undefined params
object throws a `TypeError`; an unknown (or undefined) name throws
`工具未找到`; otherwise the handler runs on `params.arguments ?? {}`. -/
def handleToolCall (s : McpServerState) (params : Option JsonValue) :
    Except String JsonValue :=
  match params with
  | none => Except.error "TypeError: cannot read property name of undefined"
  | some p =>
    let nameV := getField p "name"
    match mapGet s.tools nameV with
    | none => Except.error ("工具未找到: " ++ jsDisplay nameV)
    | some tool =>
      tool.handler ((getField p "arguments").getD (JsonValue.obj []))

/-- `McpServer.handleResourceRead`: symmetric to `handleToolCall`, keyed by
`params.uri`, calling the handler with the uri. -/
def handleResourceRead (s : McpServerState) (params : Option JsonValue) :
    Except String JsonValue :=
  match params with
  | none => Except.error "TypeError: cannot read property uri of undefined"
  | some p =>
    let uriV := getField p "uri"
    match mapGet s.resources uriV, uriV with
    | some res, some (JsonValue.str u) => res.handler u
    | _, _ => Except.error ("资源未找到: " ++ jsDisplay uriV)

/-- `McpServer.handlePromptGet`: symmetric to `handleToolCall`, keyed by
`params.name`. -/
def handlePromptGet (s : McpServerState) (params : Option JsonValue) :
    Except String JsonValue :=
  match params with
  | none => Except.error "TypeError: cannot read property name of undefined"
  | some p =>
    let nameV := getField p "name"
    match mapGet s.prompts nameV with
    | none => Except.error ("Prompt 未找到: " ++ jsDisplay nameV)
    | some prompt =>
      prompt.handler ((getField p "arguments").getD (JsonValue.obj []))

/-- Projection of one tool to its public metadata (`handler` omitted),
as produced by `McpServer.getTools`. -/
def toolInfo (t : ToolDefinition) : JsonValue :=
  JsonValue.obj
    ([("name", JsonValue.str t.name)] ++
     (match t.description with
      | some d => [("description", JsonValue.str d)]
      | none => []) ++
     [("inputSchema", t.inputSchema)])

/-- Projection of one resource to its public metadata (`handler` omitted). -/
def resourceInfo (r : ResourceDefinition) : JsonValue :=
  JsonValue.obj
    ([("uri", JsonValue.str r.uri), ("name", JsonValue.str r.name)] ++
     (match r.description with
      | some d => [("description", JsonValue.str d)]
      | none => []) ++
     (match r.mimeType with
      | some m => [("mimeType", JsonValue.str m)]
      | none => []))

/-- Projection of one prompt to its public metadata (`handler` omitted). -/
def promptInfo (p : PromptDefinition) : JsonValue :=
  JsonValue.obj
    ([("name", JsonValue.str p.name)] ++
     (match p.description with
      | some d => [("description", JsonValue.str d)]
      | none => []) ++
     (match p.arguments with
      | some a => [("arguments", a)]
      | none => []))

/-- `McpServer.handleInitialize`: protocol version, per-capability presence
flags computed as registry non-empty (`size > 0 ? {} : undefined` — the
undefined-valued properties are absent after serialization), and the
declared server info. -/
def handleInitialize (s : McpServerState) : JsonValue :=
  JsonValue.obj
    [("protocolVersion", JsonValue.str "2024-11-05"),
     ("capabilities", JsonValue.obj
       ((if s.tools.isEmpty then [] else [("tools", JsonValue.obj [])]) ++
        (if s.resources.isEmpty then [] else [("resources", JsonValue.obj [])]) ++
        (if s.prompts.isEmpty then [] else [("prompts", JsonValue.obj [])]))),
     ("serverInfo", JsonValue.obj
       [("name", JsonValue.str s.options.name),
        ("version", JsonValue.str s.options.version)])]

/-- Wraps the outcome of the `try` block of `handleRequest` into the response:
a success envelope on `ok`, a `-32000` error envelope carrying the thrown
message on `error`. -/
def mkResponse (id : Option RpcId) : Except String JsonValue → JsonRpcMessage
  | Except.ok result => { id := id, result := some result }
  | Except.error e => { id := id, error := some { code := -32000, message := e } }

/-- `McpServer.handleRequest`: route by method name; unrecognized methods get
the `-32601` error response. Mirrors the declared return type
`JSONRPCResponse | null` — note that no branch of the switch produces
`null`, so every inbound request-or-notification yields `some` response. -/
def handleRequest (s : McpServerState) (request : JsonRpcMessage) :
    Option JsonRpcMessage :=
  let id := request.id
  match request.method with
  | some "initialize" => some (mkResponse id (Except.ok (handleInitialize s)))
  | some "tools/list" =>
    some (mkResponse id (Except.ok
      (JsonValue.obj [("tools", JsonValue.arr (s.tools.map (fun kv => toolInfo kv.2)))])))
  | some "tools/call" => some (mkResponse id (handleToolCall s request.params))
  | some "resources/list" =>
    some (mkResponse id (Except.ok
      (JsonValue.obj [("resources",
        JsonValue.arr (s.resources.map (fun kv => resourceInfo kv.2)))])))
  | some "resources/read" => some (mkResponse id (handleResourceRead s request.params))
  | some "prompts/list" =>
    some (mkResponse id (Except.ok
      (JsonValue.obj [("prompts",
        JsonValue.arr (s.prompts.map (fun kv => promptInfo kv.2)))])))
  | some "prompts/get" => some (mkResponse id (handlePromptGet s request.params))
  | some "ping" => some (mkResponse id (Except.ok (JsonValue.obj [])))
  | other =>
    some { id := id,
           error := some { code := -32601,
                           message := "未知方法: " ++
                             (match other with
                              | some m => m
                              | none => "undefined") } }

/-- `McpServer.handleMessage`: a message carrying `result` or `error` goes to
the server-as-caller correlator (resolve/reject a pending entry, send
nothing); every other message is routed through `handleRequest` and the
response — always present — is sent through the transport when one is
attached. Components: new state, messages sent through the channel,
pending-call callback invocations. -/
def handleMessage (s : McpServerState) (msg : JsonRpcMessage) :
    McpServerState × List JsonRpcMessage × List ClientEvent :=
  if msg.result.isSome || msg.error.isSome then
    match msg.id with
    | some i =>
      if s.pendingRequests.contains i then
        ({ s with pendingRequests := s.pendingRequests.filter (fun x => !(x == i)) },
         [],
         match msg.error with
         | some e => [ClientEvent.rejected i e.message]
         | none => [ClientEvent.resolved i msg.result])
      else (s, [], [])
    | none => (s, [], [])
  else
    match handleRequest s msg with
    | some response => if s.transport then (s, [response], []) else (s, [], [])
    | none => (s, [], [])

/-- A connected server with empty registries, used to evaluate the router on
concrete inbound messages. -/
def demoServer : McpServerState :=
  { transport := true, options := { name := "demo-server", version := "1.0.0" } }

end McpServer

/-- The transport listener invariant: the number of listeners installed on
behalf of the instance is one exactly when it is started (zero otherwise),
and the listener handle is held exactly when started. -/
def TransportInv (s : TransportMachine) : Prop :=
  s.installedCount = (if s.started then 1 else 0) ∧ s.listener.isSome = s.started

end PostMessageMcp

namespace PostMessageMcp

/-! # Helper lemmas -/

theorem contains_insert_self (l : List RpcId) (i : RpcId) :
    (l.insert i).contains i = true := by
  simp [List.contains, List.elem_iff, List.mem_insert_iff]

theorem contains_filter_ne (l : List RpcId) (i : RpcId) :
    (l.filter (fun x => !(x == i))).contains i = false := by
  simp [List.contains, List.elem_iff, List.mem_filter]

/-- A message whose id is not pending leaves the client state untouched and
invokes no callback. -/
theorem handleMessage_of_not_pending (s : McpClientState) (msg : JsonRpcMessage) (i : RpcId)
    (hid : msg.id = some i) (h : s.pending.contains i = false) :
    McpClient.handleMessage s msg = (s, []) := by
  unfold McpClient.handleMessage
  split
  · split
    · rename_i i' heq
      rw [hid] at heq
      injection heq with hii
      subst hii
      split
      · rename_i hc
        rw [h] at hc
        exact Bool.noConfusion hc
      · rfl
    · rfl
  · rfl

/-- When the id is still pending at expiry, the timeout callback removes the
entry and rejects with the timeout error. -/
theorem onTimeout_of_pending (s : McpClientState) (id : RpcId) (method : String)
    (h : s.pending.contains id = true) :
    McpClient.onTimeout id method s =
      ({ s with pending := s.pending.filter (fun x => !(x == id)) },
       [ClientEvent.rejected id ("请求超时: " ++ method)]) := by
  simp [McpClient.onTimeout, h]
  exact List.elem_iff.mp h

theorem transportInv_init : TransportInv TransportMachine.init := by
  constructor <;> rfl

theorem clientTransportStart_preserves_inv (s : TransportMachine) (g ok : Bool)
    (h : TransportInv s) : TransportInv (clientTransportStart s g ok) := by
  obtain ⟨h1, h2⟩ := h
  unfold clientTransportStart cancelListener
  cases hs : s.started with
  | true => rw [hs] at h1 h2; exact ⟨by simp [h1, hs], by simp [h2, hs]⟩
  | false =>
    rw [hs] at h1 h2
    have hl : s.listener = none := Option.not_isSome_iff_eq_none.mp (by simp [h2])
    cases g <;> cases ok <;> simp [hl, h1, hs, TransportInv]

theorem serverTransportStart_preserves_inv (s : TransportMachine) (r ok : Bool)
    (h : TransportInv s) : TransportInv (serverTransportStart s r ok) := by
  obtain ⟨h1, h2⟩ := h
  unfold serverTransportStart cancelListener
  cases hs : s.started with
  | true => rw [hs] at h1 h2; exact ⟨by simp [h1, hs], by simp [h2, hs]⟩
  | false =>
    rw [hs] at h1 h2
    have hl : s.listener = none := Option.not_isSome_iff_eq_none.mp (by simp [h2])
    cases r <;> cases ok <;> simp [hl, h1, hs, TransportInv]

theorem transportClose_preserves_inv (s : TransportMachine)
    (h : TransportInv s) : TransportInv (transportClose s) := by
  obtain ⟨h1, h2⟩ := h
  unfold transportClose cancelListener
  cases hl : s.listener with
  | none => rw [hl] at h2; simp at h2; simp [TransportInv, hl, h1, h2]
  | some v =>
    rw [hl] at h2
    simp at h2
    simp [TransportInv, hl, h1, h2]

theorem clientTransportRun_preserves_inv (ops : List TransportOp) (s : TransportMachine)
    (h : TransportInv s) : TransportInv (clientTransportRun s ops) := by
  induction ops generalizing s with
  | nil => exact h
  | cons op ops ih =>
    cases op with
    | startOp g ok => exact ih _ (clientTransportStart_preserves_inv s g ok h)
    | closeOp => exact ih _ (transportClose_preserves_inv s h)

theorem serverTransportRun_preserves_inv (ops : List TransportOp) (s : TransportMachine)
    (h : TransportInv s) : TransportInv (serverTransportRun s ops) := by
  induction ops generalizing s with
  | nil => exact h
  | cons op ops ih =>
    cases op with
    | startOp r ok => exact ih _ (serverTransportStart_preserves_inv s r ok h)
    | closeOp => exact ih _ (transportClose_preserves_inv s h)

end PostMessageMcp

namespace PostMessageMcp.McpClient

/-- Every operation trace allocates the consecutive ids following the current
`requestId`, and advances `requestId` by exactly the number of allocations:
`disconnect` and reconnect never reset the counter. -/
theorem runOps_ids_consecutive (ops : List ClientOp) (s : McpClientState) :
    (runOps s ops).2 = List.range' (s.requestId + 1) (runOps s ops).2.length ∧
    (runOps s ops).1.requestId = s.requestId + (runOps s ops).2.length := by
  induction ops generalizing s with
  | nil => simp [runOps]
  | cons op ops ih =>
    cases op with
    | send method =>
      cases htr : s.transport with
      | none =>
        simp only [runOps, runOp, sendRequest, htr, List.nil_append]
        exact ih s
      | some u =>
        simp only [runOps, runOp, sendRequest, htr]
        constructor
        · simp only [List.singleton_append, List.length_cons]
          rw [List.range'_succ]
          exact congrArg (List.cons (s.requestId + 1)) (ih _).1
        · simp only [List.singleton_append, List.length_cons]
          refine Eq.trans (ih _).2 ?_
          simp
          omega
    | disconnectOp =>
      simp only [runOps, runOp, disconnect, List.nil_append]
      exact ih _
    | reconnectOp =>
      simp only [runOps, runOp, sendRequest]
      constructor
      · simp only [List.singleton_append, List.length_cons]
        rw [List.range'_succ]
        exact congrArg (List.cons (s.requestId + 1)) (ih _).1
      · simp only [List.singleton_append, List.length_cons]
        refine Eq.trans (ih _).2 ?_
        simp
        omega

end PostMessageMcp.McpClient

namespace PostMessageMcp

/-! # Claim theorems -/

/-- Claim C1: evaluation of `isOriginAllowed` at the input the claim singles
out. The claim asserts that, for an allow-list containing `*.example.com`,
the origin `https://evilexample.com` is rejected because it does not equal
`example.com` and does not end with `.example.com`. The code instead
accepts it: the wildcard branch tests `origin.endsWith(domain)` — a bare
suffix match on the literal characters of the domain — so the claimed
if-and-only-if characterization fails. -/
theorem c1_wildcard_admits_bare_suffix_match :
    isOriginAllowed (some ["*.example.com"]) "https://evilexample.com" = true ∧
    ¬("https://evilexample.com" = "example.com") ∧
    jsEndsWith "https://evilexample.com" ".example.com" = false := by
  refine ⟨by decide, by decide, by decide⟩

/-- Claim C2: on every inbound raw message, when the sender origin is not
accepted by the allow-list the registered message handler receives nothing
and the low-level acknowledgement is `{received:false, error:"Origin not
allowed"}`; when the origin is accepted the acknowledgement is
`{received:true}` and the registered handler (when one is registered)
receives exactly the decoded payload. -/
theorem c2_origin_gate_controls_handler_and_ack
    (alw : Option (List String)) (h : Bool) (o : String) (d : JsonRpcMessage) :
    (isOriginAllowed alw o = false →
      transportOnMessage alw h o d =
        ({ received := false, error := some "Origin not allowed" }, [])) ∧
    (isOriginAllowed alw o = true →
      transportOnMessage alw h o d =
        ({ received := true, error := none }, if h then [d] else [])) := by
  constructor <;> intro hA <;> simp [transportOnMessage, hA]

/-- Witness for C2 at concrete inputs: a rejected origin and an accepted one. -/
theorem c2_origin_gate_witness :
    transportOnMessage (some ["https://app.example.com"]) true "https://evil.com" {} =
      ({ received := false, error := some "Origin not allowed" }, []) ∧
    transportOnMessage (some ["https://app.example.com"]) true "https://app.example.com" {} =
      ({ received := true, error := none }, [{}]) := by
  constructor
  · exact (c2_origin_gate_controls_handler_and_ack _ _ _ _).1 (by decide)
  · have h := (c2_origin_gate_controls_handler_and_ack
      (some ["https://app.example.com"]) true "https://app.example.com" {}).2 (by decide)
    simpa using h

/-- Claim C3: evaluation of `McpServer.handleMessage` at the inputs the claim
is about. The claim asserts that notifications (method, no id) never yield
a response. The code sends one anyway: `handleRequest` has no branch that
returns `null`, so the `notifications/initialized` notification — which the
client emits on every successful connect — is answered with a `-32601`
error response carrying an undefined id. The second conjunct shows the part
of the claim the code does satisfy: a request carrying an id yields exactly
one response. -/
theorem c3_notification_receives_a_response :
    (McpServer.handleMessage McpServer.demoServer
        { method := some "notifications/initialized", params := some (JsonValue.obj []) }).2.1 =
      [{ id := none,
         error := some { code := -32601, message := "未知方法: notifications/initialized" } }] ∧
    (McpServer.handleMessage McpServer.demoServer
        { id := some (RpcId.num 1), method := some "ping",
          params := some (JsonValue.obj []) }).2.1 =
      [{ id := some (RpcId.num 1), result := some (JsonValue.obj []) }] := by
  constructor <;> rfl

/-- Counterexample to claim C4 as stated: a client with one in-flight pending
call disconnects; the claim says the dangling call rejects when it hits its
30-second timeout, but `disconnect()` rejects nothing (second-component
event list is empty) and — because it cleared the pending entry — the
timeout callback for that id later fires as a no-op, so the call never
rejects. -/
theorem c4_timeout_after_disconnect_never_rejects :
    (McpClient.disconnect
        { transport := some (), state := ClientState.connected,
          pending := [RpcId.num 1], requestId := 1 }).2.2 = [] ∧
    McpClient.onTimeout (RpcId.num 1) "tools/list"
        (McpClient.disconnect
          { transport := some (), state := ClientState.connected,
            pending := [RpcId.num 1], requestId := 1 }).1 =
      ((McpClient.disconnect
          { transport := some (), state := ClientState.connected,
            pending := [RpcId.num 1], requestId := 1 }).1, []) := by
  constructor <;> rfl

/-- Claim C4 (amended): `disconnect()` closes the channel when one is
attached, clears pending state, transitions to disconnected and is
idempotent; it rejects no in-flight pending call — and because it removes
their entries, the 30-second timeout handler (which only rejects calls
still pending) never rejects them afterwards either: calls in flight at
disconnect are left permanently unsettled. -/
theorem c4_disconnect_clears_state_and_abandons_pending (s : McpClientState) :
    (McpClient.disconnect s).1.state = ClientState.disconnected ∧
    (McpClient.disconnect s).1.transport = none ∧
    (McpClient.disconnect s).1.pending = [] ∧
    (McpClient.disconnect s).1.serverInfo = none ∧
    (McpClient.disconnect s).2.1 = s.transport.isSome ∧
    (McpClient.disconnect s).2.2 = [] ∧
    McpClient.disconnect (McpClient.disconnect s).1 = ((McpClient.disconnect s).1, false, []) ∧
    (∀ id method, McpClient.onTimeout id method (McpClient.disconnect s).1 =
      ((McpClient.disconnect s).1, [])) := by
  refine ⟨rfl, rfl, rfl, rfl, rfl, rfl, rfl, ?_⟩
  intro id method
  rfl

/-- Counterexample to claim C5 as stated: the state `connect()` reaches right
after its transport has started has connection state `connecting` — not
`connected` — yet `listTools` succeeds and sends a request instead of
failing with the transport-not-started error, because the guard in
`sendRequest` tests only `this.transport === null`. -/
theorem c5_connecting_state_sends_instead_of_failing :
    (McpClient.connectAfterStart McpClient.freshClient).state ≠ ClientState.connected ∧
    McpClient.exceptOk (McpClient.listTools (McpClient.connectAfterStart McpClient.freshClient)) = true ∧
    McpClient.listTools (McpClient.connectAfterStart McpClient.freshClient) =
      Except.ok
        ({ McpClient.connectAfterStart McpClient.freshClient with
            requestId := 1, pending := [RpcId.num 1] },
         { id := some (RpcId.num 1), method := some "tools/list",
           params := some (JsonValue.obj []) },
         { id := RpcId.num 1, delayMs := 30000 }) := by
  refine ⟨by decide, rfl, rfl⟩

/-- Claim C5 (amended): each capability-facing operation (`listTools`,
`callTool`, `readResource`, `listPrompts`, `getPrompt`, `ping`) is a thin
wrapper over `sendRequest` and fails — with the client-not-connected
error — exactly when the engine has no transport attached. States
`disconnected` and `error` are produced with the transport nulled, so
operations invoked there fail; during an in-flight `connect()` (state
`connecting`, transport attached) they send instead of failing. -/
theorem c5_capability_ops_fail_iff_transport_absent (s : McpClientState)
    (name uri : String) (args : Option JsonValue) :
    (McpClient.exceptOk (McpClient.listTools s) = false ↔ s.transport = none) ∧
    (McpClient.exceptOk (McpClient.callTool name args s) = false ↔ s.transport = none) ∧
    (McpClient.exceptOk (McpClient.readResource uri s) = false ↔ s.transport = none) ∧
    (McpClient.exceptOk (McpClient.listPrompts s) = false ↔ s.transport = none) ∧
    (McpClient.exceptOk (McpClient.getPrompt name args s) = false ↔ s.transport = none) ∧
    (McpClient.exceptOk (McpClient.ping s) = false ↔ s.transport = none) ∧
    (s.transport = none → McpClient.listTools s = Except.error "Client 未连接") := by
  cases htr : s.transport <;>
    simp [McpClient.listTools, McpClient.callTool, McpClient.readResource,
      McpClient.listPrompts, McpClient.getPrompt, McpClient.ping,
      McpClient.sendRequest, McpClient.exceptOk, htr]

/-- Witness for the amended C5 on a fresh (disconnected) client: every
operation fails with the client-not-connected error. -/
theorem c5_amended_witness :
    McpClient.exceptOk (McpClient.listTools McpClient.freshClient) = false ∧
    McpClient.listTools McpClient.freshClient = Except.error "Client 未连接" := by
  have h := c5_capability_ops_fail_iff_transport_absent McpClient.freshClient "n" "u" none
  exact ⟨h.1.mpr rfl, h.2.2.2.2.2.2 rfl⟩

/-- Claim C6: evaluation of the target-resolution and iframe-guard logic of
`PostMessageClientTransport`. The claim asserts `start()` fails outside an
embedded context when no explicit target is given. It cannot: the
constructor defaults `parentWindow` to `window.parent`, which is always an
actual (truthy) window, so the guard condition
`window === window.parent && !this.parentWindow` is false for every input
— at the top level with default options the transport resolves the target
to the window itself and proceeds. The last two conjuncts record which
option supplies an explicit target: the deprecated `parent` field is
honoured while the documented `target` field is ignored. -/
theorem c6_start_outside_iframe_does_not_fail :
    (∀ (opts : ClientTransportOptions) (selfWindow : Nat) (parentOf : Nat → Nat),
      clientStartGuardThrows opts selfWindow parentOf = false) ∧
    resolveParentWindow {} 0 (fun w => w) = 0 ∧
    resolveParentWindow { target := some 7 } 3 (fun _ => 5) = 5 ∧
    resolveParentWindow { parent := some 7 } 3 (fun _ => 5) = 7 := by
  refine ⟨?_, rfl, rfl, rfl⟩
  intro opts selfW p
  simp [clientStartGuardThrows, windowTruthy]

/-- Claim C7: every request sent by `sendRequest` arms a 30 000 ms timer for
its id; when the timer fires with the id still pending, the call rejects
with the request-timeout error and the pending entry is removed, and any
response for that id arriving afterwards is ignored with no observable
effect (state unchanged, no callbacks). -/
theorem c7_request_timeout_rejects_and_late_response_ignored
    (s : McpClientState) (method : String) (params : Option JsonValue)
    (s' : McpClientState) (req : JsonRpcMessage) (timer : ArmedTimer)
    (hsend : McpClient.sendRequest method params s = Except.ok (s', req, timer)) :
    timer.delayMs = 30000 ∧
    s'.pending.contains timer.id = true ∧
    (McpClient.onTimeout timer.id method s').2 =
      [ClientEvent.rejected timer.id ("请求超时: " ++ method)] ∧
    (McpClient.onTimeout timer.id method s').1.pending.contains timer.id = false ∧
    (∀ msg : JsonRpcMessage, msg.id = some timer.id →
      McpClient.handleMessage (McpClient.onTimeout timer.id method s').1 msg =
        ((McpClient.onTimeout timer.id method s').1, [])) := by
  unfold McpClient.sendRequest at hsend
  cases htr : s.transport with
  | none => rw [htr] at hsend; exact absurd hsend (by simp)
  | some u =>
    rw [htr] at hsend
    simp only [Except.ok.injEq, Prod.mk.injEq] at hsend
    obtain ⟨hs', hreq, htimer⟩ := hsend
    subst hs'
    subst htimer
    refine ⟨rfl, contains_insert_self _ _, ?_, ?_, ?_⟩
    · rw [onTimeout_of_pending _ _ _ (contains_insert_self _ _)]
    · rw [onTimeout_of_pending _ _ _ (contains_insert_self _ _)]
      exact contains_filter_ne _ _
    · intro msg hmsg
      rw [onTimeout_of_pending _ _ _ (contains_insert_self _ _)]
      exact handleMessage_of_not_pending _ _ _ hmsg (contains_filter_ne _ _)

/-- Witness for C7: concrete client mid-connect sends `ping`; its timeout
fires and rejects with the timeout message. -/
theorem c7_timeout_witness :
    (McpClient.onTimeout (RpcId.num 1) "ping"
        { transport := some (), requestId := 1, pending := [RpcId.num 1],
          state := ClientState.connecting, serverInfo := none }).2 =
      [ClientEvent.rejected (RpcId.num 1) "请求超时: ping"] := by
  have h := c7_request_timeout_rejects_and_late_response_ignored
    (McpClient.connectAfterStart McpClient.freshClient) "ping" (some (JsonValue.obj []))
    { transport := some (), requestId := 1, pending := [RpcId.num 1],
      state := ClientState.connecting, serverInfo := none }
    { id := some (RpcId.num 1), method := some "ping", params := some (JsonValue.obj []) }
    { id := RpcId.num 1, delayMs := 30000 } rfl
  exact h.2.2.1

/-- Claim C8: an inbound response whose id matches no pending call is ignored
silently — the client state (including the set of remaining pending calls)
is unchanged and no callback is resolved or rejected. -/
theorem c8_unknown_id_response_silently_ignored
    (s : McpClientState) (msg : JsonRpcMessage) (i : RpcId)
    (hid : msg.id = some i) (hnp : s.pending.contains i = false) :
    McpClient.handleMessage s msg = (s, []) :=
  handleMessage_of_not_pending s msg i hid hnp

/-- Witness for C8: a fresh client receives a response for the unknown id 5. -/
theorem c8_unknown_id_witness :
    McpClient.handleMessage McpClient.freshClient
        { id := some (RpcId.num 5), result := some JsonValue.null } =
      (McpClient.freshClient, []) :=
  c8_unknown_id_response_silently_ignored McpClient.freshClient
    { id := some (RpcId.num 5), result := some JsonValue.null } (RpcId.num 5) rfl rfl

/-- Claim C9: across every sequence of engine operations on one fresh
`McpClient` instance — sends, `disconnect()`, reconnects — the allocated
request ids are exactly the consecutive integers starting at 1 (so they
are strictly increasing and never reused within the lifetime of the
instance: neither disconnect nor reconnect resets the counter). -/
theorem c9_request_ids_strictly_increasing_from_one (ops : List McpClient.ClientOp) :
    (McpClient.runOps McpClient.freshClient ops).2 =
      List.range' 1 (McpClient.runOps McpClient.freshClient ops).2.length ∧
    List.Pairwise (· < ·) (McpClient.runOps McpClient.freshClient ops).2 := by
  have h := McpClient.runOps_ids_consecutive ops McpClient.freshClient
  refine ⟨h.1, ?_⟩
  rw [h.1]
  exact List.pairwise_lt_range' 1 _

/-- Claim C10: calling `start()` on an already-started transport (client or
server) is a no-op — the state is returned unchanged, so no second
listener is installed, the existing one is not replaced, and the client
startup delay is not re-applied — and every reachable started transport
has exactly one installed listener. -/
theorem c10_second_start_is_noop_and_single_listener :
    (∀ (s : TransportMachine) (g ok : Bool), s.started = true →
      clientTransportStart s g ok = s) ∧
    (∀ (s : TransportMachine) (r ok : Bool), s.started = true →
      serverTransportStart s r ok = s) ∧
    (∀ ops : List TransportOp,
      (clientTransportRun TransportMachine.init ops).started = true →
      (clientTransportRun TransportMachine.init ops).installedCount = 1) ∧
    (∀ ops : List TransportOp,
      (serverTransportRun TransportMachine.init ops).started = true →
      (serverTransportRun TransportMachine.init ops).installedCount = 1) := by
  refine ⟨?_, ?_, ?_, ?_⟩
  · intro s g ok h
    unfold clientTransportStart
    simp [h]
  · intro s r ok h
    unfold serverTransportStart
    simp [h]
  · intro ops h
    have hinv := clientTransportRun_preserves_inv ops TransportMachine.init transportInv_init
    rw [hinv.1, h]
    rfl
  · intro ops h
    have hinv := serverTransportRun_preserves_inv ops TransportMachine.init transportInv_init
    rw [hinv.1, h]
    rfl

/-- Witness for C10: one concrete started client and server transport; a
second `start()` changes nothing and the listener count is one. -/
theorem c10_second_start_witness :
    clientTransportStart (clientTransportStart TransportMachine.init false true) false true =
      clientTransportStart TransportMachine.init false true ∧
    (clientTransportRun TransportMachine.init [TransportOp.startOp false true]).installedCount = 1 ∧
    serverTransportStart (serverTransportStart TransportMachine.init true true) true true =
      serverTransportStart TransportMachine.init true true ∧
    (serverTransportRun TransportMachine.init [TransportOp.startOp true true]).installedCount = 1 := by
  have h := c10_second_start_is_noop_and_single_listener
  exact ⟨h.1 _ false true rfl, h.2.2.1 _ rfl, h.2.1 _ true true rfl, h.2.2.2 _ rfl⟩

end PostMessageMcp
